import Mathlib

/-!
Verification of the KursKompass API crawl-and-extract engine
(`scraper.py` and the serving layer `app.py`).

The Python source is shallowly embedded: pure fragments become Lean
functions, the HTTP fetch of `QISScraper._get_page` becomes an oracle
`String → Option Doc` (a parsed document or the explicit "no document"
failure), and the mutable scraper/progress state is threaded explicitly.
-/

namespace Kurskompass

/-! ## String helpers modelling Python stdlib collaborators -/

/-- Value of a hexadecimal digit, if the character is one. -/
def hexDigit? (c : Char) : Option Nat :=
  if '0' ≤ c ∧ c ≤ '9' then some (c.toNat - '0'.toNat)
  else if 'a' ≤ c ∧ c ≤ 'f' then some (c.toNat - 'a'.toNat + 10)
  else if 'A' ≤ c ∧ c ≤ 'F' then some (c.toNat - 'A'.toNat + 10)
  else none

/-- Character-level percent decoding: `%XX` with two hex digits becomes the
byte value, any other `%` is kept literally.  Models
`urllib.parse.unquote` as used in `scraper.py` (the identifiers handled
there are ASCII, e.g. `%7C` = `"|"`, so the UTF-8 byte recombination of
the Python function never comes into play). -/
def unquoteChars : List Char → List Char
  | [] => []
  | '%' :: a :: b :: rest =>
    match hexDigit? a, hexDigit? b with
    | some ha, some hb => Char.ofNat (16 * ha + hb) :: unquoteChars rest
    | _, _ => '%' :: unquoteChars (a :: b :: rest)
  | c :: rest => c :: unquoteChars rest

/-- `urllib.parse.unquote` on strings. -/
def unquote (s : String) : String := String.mk (unquoteChars s.toList)

/-- Substring test on character lists: models Python's `pat in s`. -/
def containsSub (pat : List Char) : List Char → Bool
  | [] => pat.isEmpty
  | c :: rest => pat.isPrefixOf (c :: rest) || containsSub pat rest

/-- Python's `pat in s` for strings. -/
def strContains (s pat : String) : Bool := containsSub pat.toList s.toList

/-- Split a character list at every occurrence of `sep`. -/
def splitChars (sep : Char) : List Char → List (List Char)
  | [] => [[]]
  | c :: rest =>
    let r := splitChars sep rest
    if c = sep then [] :: r
    else (c :: r.headD []) :: r.tail

/-- Python's `s.split(sep)` for a one-character separator (as used with
`"|"` and `":"` in `scraper.py`): `"".split -> [""]`, separators at the
ends produce empty fields. -/
def pysplit (s : String) (sep : Char) : List String :=
  (splitChars sep s.toList).map String.mk

/-- Whitespace as stripped by Python's `str.strip()` (the ASCII part;
the identifiers and labels handled here are not padded with exotic
Unicode spaces). -/
def isSpace (c : Char) : Bool :=
  c = ' ' || c = '\t' || c = '\n' || c = '\x0d' || c = '\x0b' || c = '\x0c'

/-- Python's `s.strip()`. -/
def pystrip (s : String) : String :=
  String.mk (((s.toList.dropWhile isSpace).reverse.dropWhile isSpace).reverse)

/-- Python's `sep.join(parts)`. -/
def pyjoin (sep : String) : List String → String
  | [] => ""
  | [x] => x
  | x :: y :: xs => x ++ sep ++ pyjoin sep (y :: xs)

/-- Python's `s[:n]` (by code point). -/
def pytake (s : String) (n : Nat) : String := String.mk (s.toList.take n)

/-- The literal characters of the query-parameter key `root120261=`
matched by the regex `root120261=([^&]+)` in `_find_tree_children`. -/
def rootParamKey : List Char := "root120261=".toList

/-- Try to match the regex `root120261=([^&]+)` at the head of a character
list: the literal key followed by at least one non-`&` character, the
capture being the maximal such run. -/
def matchRootAt (l : List Char) : Option (List Char) :=
  if rootParamKey.isPrefixOf l then
    let run := (l.drop rootParamKey.length).takeWhile (fun c => c ≠ '&')
    if run.isEmpty then none else some run
  else none

/-- `re.search(r'root120261=([^&]+)', href)`: the first position at which
the pattern matches, returning the capture group. -/
def searchRoot : List Char → Option (List Char)
  | [] => none
  | c :: rest =>
    match matchRootAt (c :: rest) with
    | some r => some r
    | none => searchRoot rest

/-- Extract the `root120261` parameter from an href, as
`re.search(r'root120261=([^&]+)', href)` does in `scraper.py` line 174. -/
def extract_root_param (href : String) : Option String :=
  (searchRoot href.toList).map String.mk

/-! ## Data model (`scraper.py`) -/

/-- `BASE_URL` from `scraper.py`. -/
def BASE_URL : String := "https://qis.server.uni-frankfurt.de"

/-- `START_ROOT` from `scraper.py`. -/
def START_ROOT : String := "118146%7C118447"

/-- `QISScraper._build_tree_url` (lines 89–94). -/
def build_tree_url (root_path : String) : String :=
  BASE_URL ++ "/qisserver/rds?state=wtree&search=1&trex=step&root120261="
    ++ root_path ++ "&P.vx=kurz"

/-- One schedule occurrence as produced by `_parse_termine_table` and
tagged by `_scrape_detail`: a Python dict whose keys default to `""`
under `.get`. -/
structure Termin where
  tag : String := ""
  zeit : String := ""
  rhythmus : String := ""
  raum : String := ""
  gruppe : String := ""
  dozent : String := ""
deriving DecidableEq, Repr

/-- The dict returned by `QISScraper._scrape_detail` (lines 338–489);
every `.get(key, "")` read defaults to the empty string, modelled by
default fields.  `gruppen` is the flat occurrence list of line 439
(group-tagged in group mode, untagged otherwise). -/
structure Detail where
  veranstaltungsart : String := ""
  kuerzel : String := ""
  semester : String := ""
  sws : String := ""
  max_teilnehmer : String := ""
  sprache : String := ""
  credits : String := ""
  belegung : String := ""
  belegungsfristen : String := ""
  gruppen : List Termin := []
  tag : String := ""
  zeit : String := ""
  rhythmus : String := ""
  raum : String := ""
  dozent : String := ""
  studiengaenge : String := ""
  kommentar : String := ""
  voraussetzungen : String := ""
deriving DecidableEq, Repr

/-- Lines 441–446 of `_scrape_detail`: when occurrences were parsed, the
first one becomes the primary weekday/time/recurrence/room of the result
dict ("Rückwärtskompatibilität: Erste Gruppe als Haupttermin"). -/
def finishDetail (d : Detail) : Detail :=
  match d.gruppen with
  | [] => d
  | t :: _ => { d with tag := t.tag, zeit := t.zeit, rhythmus := t.rhythmus, raum := t.raum }

/-- An anchor of class `ueb` as returned by
`soup.find_all("a", class_="ueb")`: its `href` attribute and its
whitespace-stripped text. -/
structure Link where
  href : String := ""
  name : String := ""
deriving DecidableEq, Repr

/-- One listing-table row that passed the guards of
`_scrape_page_veranstaltungen` lines 234–242 (at least two cells, a
`regular`-class link whose href carries `state=verpublish`); rows failing
those guards contribute nothing and are omitted from the model.
`dozent_links` holds the texts of the `klein`-class lecturer sub-links
(lines 247–250), `vst_art` the stripped text of the second cell. -/
structure Row where
  link_text : String := ""
  detail_url : String := ""
  dozent_links : List String := []
  vst_art : String := ""
deriving DecidableEq, Repr

/-- A parsed page as seen through the queries the scraper performs on a
`BeautifulSoup` document: the event-listing table
(`summary="Übersicht über alle Veranstaltungen"`, present or not, with
its qualifying rows), the `ueb` navigation anchors, and the content a
detail-page parse (lines 343–439 of `_scrape_detail`, before the
line 441–446 assembly) would yield on it. -/
structure Doc where
  verRows : Option (List Row) := none
  links : List Link := []
  rawDetail : Detail := {}

/-- The record emitted for one offering: dataclass `Veranstaltung`
(lines 24–48). -/
structure Veranstaltung where
  pfad : String := ""
  kennung : String := ""
  titel : String := ""
  dozent : String := ""
  veranstaltungsart : String := ""
  semester : String := ""
  sws : String := ""
  gruppe : String := ""
  tag : String := ""
  zeit : String := ""
  rhythmus : String := ""
  raum : String := ""
  max_teilnehmer : String := ""
  belegung : String := ""
  belegungsfristen : String := ""
  credits : String := ""
  sprache : String := ""
  kuerzel : String := ""
  studiengaenge : String := ""
  kommentar : String := ""
  voraussetzungen : String := ""
  detail_url : String := ""
  weitere_termine : List Termin := []
deriving DecidableEq, Repr

/-- Dataclass `BaumKnoten` (lines 51–57): a tree node with display name,
position identifier `root_path`, navigable URL, children and the
event-bearing flag.  Recursive, so an inductive type. -/
inductive BaumKnoten where
  | mk (name root_path url : String) (children : List BaumKnoten)
       (has_veranstaltungen : Bool)

def BaumKnoten.name : BaumKnoten → String
  | mk n _ _ _ _ => n

def BaumKnoten.root_path : BaumKnoten → String
  | mk _ r _ _ _ => r

def BaumKnoten.url : BaumKnoten → String
  | mk _ _ u _ _ => u

def BaumKnoten.children : BaumKnoten → List BaumKnoten
  | mk _ _ _ c _ => c

def BaumKnoten.has_veranstaltungen : BaumKnoten → Bool
  | mk _ _ _ _ h => h

/-- The progress dict of `QISScraper` (lines 70–76). -/
structure Progress where
  phase : String := "idle"
  status : String := "Bereit"
  current : Nat := 0
  total : Nat := 0
  details : List String := []
deriving DecidableEq, Repr

/-- Append an entry to `progress["details"]` and truncate to the last 5
(the `if len > 5: details = details[-5:]` idiom at lines 150–151 and
263–264). -/
def pushDetail (p : Progress) (s : String) : Progress :=
  let d := p.details ++ [s]
  { p with details := if d.length > 5 then d.drop (d.length - 5) else d }

/-! ## Tree discovery (`_find_tree_children`, lines 163–191) -/

/-- Python's `s.startswith(pre)`, at the character-list level. -/
def startswith (s pre : String) : Bool := pre.toList.isPrefixOf s.toList

/-- The acceptance test of line 182: the candidate's percent-decoded
pipe-split segment count is the parent's plus one, and the decoded
candidate string starts with the decoded parent string. -/
def is_child_of (parent_root root_path : String) : Bool :=
  let parent_decoded := unquote parent_root
  let root_decoded := unquote root_path
  ((pysplit root_decoded '|').length == (pysplit parent_decoded '|').length + 1)
    && startswith root_decoded parent_decoded

/-- The body of the `for a_tag in soup.find_all("a", class_="ueb")` loop
(lines 169–189), one link at a time, translated with the loop's
`children.append` becoming an in-order cons. -/
def find_tree_children_loop (parent_decoded : String) (parent_depth : Nat) :
    List Link → List BaumKnoten
  | [] => []
  | a :: rest =>
    if strContains a.href "state=wtree" && strContains a.href "root120261=" then
      match extract_root_param a.href with
      | none => find_tree_children_loop parent_decoded parent_depth rest
      | some root_path =>
        let root_decoded := unquote root_path
        let segments := pysplit root_decoded '|'
        if segments.length == parent_depth + 1 && startswith root_decoded parent_decoded then
          let name := a.name
          if name ≠ "" && name ∉ ["kurz", "mittel", "lang"] then
            BaumKnoten.mk name root_path (build_tree_url root_path) [] false
              :: find_tree_children_loop parent_decoded parent_depth rest
          else find_tree_children_loop parent_decoded parent_depth rest
        else find_tree_children_loop parent_decoded parent_depth rest
    else find_tree_children_loop parent_decoded parent_depth rest

/-- `QISScraper._find_tree_children` (lines 163–191). -/
def find_tree_children (links : List Link) (parent_root : String) : List BaumKnoten :=
  let parent_decoded := unquote parent_root
  let parent_depth := (pysplit parent_decoded '|').length
  find_tree_children_loop parent_decoded parent_depth links

/-! ## Phase 1: tree scan (`scan_tree` / `_scan_node_recursive`,
lines 109–161)

The page fetch `_get_page` is an oracle `fetch : String → Option Doc`
(`none` is its logged "no document" failure result).  Each scan function
additionally returns the list of URLs it requested, in order — this is
instrumentation for stating "no fetch was performed", not program
state. -/

/-- The `for child in children: self._scan_node_recursive(child, ...)`
loop of lines 160–161, parametrised by the recursive step (which already
carries the child depth). -/
def scanChildren (rec : BaumKnoten → Progress → BaumKnoten × Progress × List String) :
    List BaumKnoten → Progress → List BaumKnoten × Progress × List String
  | [], p => ([], p, [])
  | k :: ks, p =>
    ((rec k p).1 :: (scanChildren rec ks (rec k p).2.1).1,
     (scanChildren rec ks (rec k p).2.1).2.1,
     (rec k p).2.2 ++ (scanChildren rec ks (rec k p).2.1).2.2)

/-- `QISScraper._scan_node_recursive(node, depth, max_depth)`
(lines 140–161).  The `depth >= max_depth` guard at line 141 is encoded
by the remaining budget `gas = max_depth - depth`: `gas = 0` returns the
node untouched without fetching; otherwise the node's page is fetched
(on failure the node is returned as-is, line 146), progress is bumped,
the event flag is set when the listing table is present, and the
discovered children are scanned with `gas - 1`. -/
def scan_node_recursive (fetch : String → Option Doc) :
    Nat → BaumKnoten → Progress → BaumKnoten × Progress × List String
  | 0, node, p => (node, p, [])
  | gas+1, node, p =>
    match fetch node.url with
    | none => (node, p, [node.url])
    | some doc =>
      let p1 := pushDetail { p with current := p.current + 1 } node.name
      let hv := node.has_veranstaltungen || doc.verRows.isSome
      let kids := find_tree_children doc.links node.root_path
      let r := scanChildren (scan_node_recursive fetch gas) kids p1
      (BaumKnoten.mk node.name node.root_path node.url r.1 hv, r.2.1, node.url :: r.2.2)

/-- `QISScraper._count_nodes` (lines 193–197). -/
def count_nodes : List BaumKnoten → Nat
  | [] => 0
  | BaumKnoten.mk _ _ _ ch _ :: ns => 1 + count_nodes ch + count_nodes ns

/-- The `for node in top_nodes` loop of `scan_tree` (lines 131–134):
status line per node, then the recursive scan. -/
def scanTops (rec : BaumKnoten → Progress → BaumKnoten × Progress × List String) :
    List BaumKnoten → Progress → List BaumKnoten × Progress × List String
  | [], p => ([], p, [])
  | k :: ks, p =>
    ((rec k { p with status := "Scanne " ++ k.name ++ "..." }).1
       :: (scanTops rec ks (rec k { p with status := "Scanne " ++ k.name ++ "..." }).2.1).1,
     (scanTops rec ks (rec k { p with status := "Scanne " ++ k.name ++ "..." }).2.1).2.1,
     (rec k { p with status := "Scanne " ++ k.name ++ "..." }).2.2
       ++ (scanTops rec ks (rec k { p with status := "Scanne " ++ k.name ++ "..." }).2.1).2.2)

/-- `QISScraper.scan_tree` (lines 109–138), including the placeholder
node synthesised when a caller-supplied root has no discoverable
children (lines 122–129).  The hard-coded depth bound is 6
(`self._scan_node_recursive(node, 0, 6)` at line 134). -/
def scan_tree (fetch : String → Option Doc) (start_root : Option String) :
    List BaumKnoten × Progress × List String :=
  let p0 : Progress :=
    { phase := "scan", status := "Scanne Baumstruktur...", current := 0, total := 0, details := [] }
  let root := start_root.getD START_ROOT
  let url := build_tree_url root
  match fetch url with
  | none => ([], { p0 with status := "Fehler beim Laden der Startseite", phase := "error" }, [url])
  | some doc =>
    let top_nodes := find_tree_children doc.links root
    let top_nodes :=
      if top_nodes.isEmpty && start_root.isSome then
        [BaumKnoten.mk "Ausgewählter Bereich" root url [] doc.verRows.isSome]
      else top_nodes
    let r := scanTops (scan_node_recursive fetch 6) top_nodes p0
    let pFinal := { r.2.1 with
      phase := "scan_done"
      status := "Struktur geladen: " ++ toString (count_nodes r.1) ++ " Bereiche" }
    (r.1, pFinal, url :: r.2.2)

/-! ## Phase 2: extraction (`scrape_selected` and helpers,
lines 201–336) -/

/-- Lines 255–261: text before the first colon (stripped) is the code,
the remainder (stripped) the title; with no colon the code is left blank
and the whole text is the title.  `link_text.split(":", 1)` is modelled
by splitting on every colon and re-joining the tail. -/
def extract_kennung_titel (link_text : String) : String × String :=
  if strContains link_text ":" then
    let parts := pysplit link_text ':'
    (pystrip (parts.headD ""), pystrip (pyjoin ":" parts.tail))
  else ("", link_text)

/-- Lines 268–270 ("Modul-Fix"): an empty code is backfilled from the
last breadcrumb segment when the breadcrumb is non-empty. -/
def backfill_kennung (kennung : String) (path : List String) : String :=
  if kennung = "" ∧ path ≠ [] then path.getLastD "" else kennung

/-- `QISScraper._scrape_detail` at the granularity of this model: the
page fetch (line 339, `none` on failure), the collaborator-parsed field
dict, and the line 441–446 assembly of the primary schedule fields. -/
def scrape_detail (fetch : String → Option Doc) (url : String) : Option Detail :=
  match fetch url with
  | none => none
  | some doc => some (finishDetail doc.rawDetail)

/-- The per-row emission logic of `_scrape_page_veranstaltungen`
(lines 244–336 without the progress writes): code/title split and
backfill, lecturer fallback chain, and the group decision of
lines 276–308 — when more than one occurrence was parsed and any
occurrence carries a non-empty group label, one record is emitted per
occurrence; otherwise a single record whose primary schedule fields come
from the detail dict and whose remaining occurrences become
`weitere_termine`. -/
def processRow (path : List String) (row : Row) (detail : Option Detail) :
    List Veranstaltung :=
  let dozent := pyjoin ", " row.dozent_links
  let kt := extract_kennung_titel row.link_text
  let titel := kt.2
  let kennung := backfill_kennung kt.1 path
  let base_dozent :=
    if dozent ≠ "" then dozent else (match detail with | some d => d.dozent | none => "")
  let gruppen := match detail with | some d => d.gruppen | none => []
  let dget (f : Detail → String) : String :=
    match detail with | some d => f d | none => ""
  if gruppen.length > 1 && gruppen.any (fun g => g.gruppe ≠ "") then
    gruppen.map fun g =>
      { pfad := pyjoin " > " path
        kennung := kennung
        titel := titel
        dozent := if g.dozent ≠ "" then g.dozent else base_dozent
        veranstaltungsart := row.vst_art
        semester := dget (fun d => d.semester)
        sws := dget (fun d => d.sws)
        gruppe := g.gruppe
        tag := g.tag
        zeit := g.zeit
        rhythmus := g.rhythmus
        raum := g.raum
        max_teilnehmer := dget (fun d => d.max_teilnehmer)
        belegung := dget (fun d => d.belegung)
        belegungsfristen := dget (fun d => d.belegungsfristen)
        credits := dget (fun d => d.credits)
        sprache := dget (fun d => d.sprache)
        kuerzel := dget (fun d => d.kuerzel)
        studiengaenge := dget (fun d => d.studiengaenge)
        kommentar := dget (fun d => d.kommentar)
        voraussetzungen := dget (fun d => d.voraussetzungen)
        detail_url := row.detail_url }
  else
    [{ pfad := pyjoin " > " path
       kennung := kennung
       titel := titel
       dozent := base_dozent
       veranstaltungsart := row.vst_art
       semester := dget (fun d => d.semester)
       sws := dget (fun d => d.sws)
       gruppe := match gruppen with | [] => "" | g :: _ => g.gruppe
       tag := dget (fun d => d.tag)
       zeit := dget (fun d => d.zeit)
       rhythmus := dget (fun d => d.rhythmus)
       raum := dget (fun d => d.raum)
       max_teilnehmer := dget (fun d => d.max_teilnehmer)
       belegung := dget (fun d => d.belegung)
       belegungsfristen := dget (fun d => d.belegungsfristen)
       credits := dget (fun d => d.credits)
       sprache := dget (fun d => d.sprache)
       kuerzel := dget (fun d => d.kuerzel)
       studiengaenge := dget (fun d => d.studiengaenge)
       kommentar := dget (fun d => d.kommentar)
       voraussetzungen := dget (fun d => d.voraussetzungen)
       detail_url := row.detail_url
       weitere_termine := if gruppen.length > 1 then gruppen.drop 1 else [] }]

/-- The scraper state mutated by Phase 2: the `self.veranstaltungen`
accumulator and the progress dict. -/
structure ScrapeState where
  veranstaltungen : List Veranstaltung := []
  progress : Progress := {}
deriving DecidableEq, Repr

/-- `QISScraper._scrape_page_veranstaltungen` (lines 224–336): fetch the
listing page (failure or missing listing table contributes nothing);
for each qualifying row push the truncated title to the rolling log,
fetch the detail page, and append the emitted records. -/
def scrape_page (fetch : String → Option Doc) (url : String) (path : List String)
    (st : ScrapeState) : ScrapeState :=
  match fetch url with
  | none => st
  | some doc =>
    match doc.verRows with
    | none => st
    | some rows =>
      rows.foldl (fun s row =>
        let titel := (extract_kennung_titel row.link_text).2
        let s := { s with progress := pushDetail s.progress (pytake titel 50 ++ "...") }
        let detail := scrape_detail fetch row.detail_url
        { s with veranstaltungen := s.veranstaltungen ++ processRow path row detail }) st

mutual

/-- `QISScraper._scrape_node_recursive` (lines 212–222): extend the
breadcrumb, scrape the node's page when its identifier is selected
(status line, page scrape, counter bump), then recurse into the
children. -/
def scrape_node_recursive (fetch : String → Option Doc) (selected : List String) :
    BaumKnoten → List String → ScrapeState → ScrapeState
  | BaumKnoten.mk nm rp u ch _, path, st =>
    let current_path := path ++ [nm]
    let st :=
      if selected.contains rp then
        let st := { st with progress := { st.progress with status := "Scrape: " ++ nm ++ "..." } }
        let st := scrape_page fetch u current_path st
        { st with progress := { st.progress with current := st.progress.current + 1 } }
      else st
    scrape_node_children fetch selected ch current_path st

/-- The `for child in node.children` loop of lines 221–222. -/
def scrape_node_children (fetch : String → Option Doc) (selected : List String) :
    List BaumKnoten → List String → ScrapeState → ScrapeState
  | [], _, st => st
  | k :: ks, path, st =>
    scrape_node_children fetch selected ks path
      (scrape_node_recursive fetch selected k path st)

end

/-- `QISScraper.scrape_selected` (lines 201–210): reset the accumulator
and the progress dict, walk every top-level node with an empty
breadcrumb, set the terminal status, and return the accumulated records
(which also stay stored in the state).  `_self` is the scraper state the
method is invoked on; lines 202–203 overwrite both of its fields before
anything reads them. -/
def scrape_selected (fetch : String → Option Doc) (tree : List BaumKnoten)
    (selected : List String) (_self : ScrapeState) : List Veranstaltung × ScrapeState :=
  let st1 : ScrapeState :=
    { veranstaltungen := []
      progress := { phase := "scrape", status := "Starte...", current := 0,
                    total := selected.length, details := [] } }
  let st2 := scrape_node_children fetch selected tree [] st1
  let pDone := { st2.progress with
    phase := "done"
    status := "Fertig! " ++ toString st2.veranstaltungen.length ++ " Veranstaltungen gefunden." }
  let st3 := { st2 with progress := pDone }
  (st3.veranstaltungen, st3)

/-! ## Tree serialization (`tree_to_dict` / `dict_to_tree`,
lines 526–546) -/

/-- The external serialized form: name, identifier, event flag, children
— no URL. -/
inductive TreeDict where
  | mk (name root_path : String) (has_veranstaltungen : Bool) (children : List TreeDict)

/-- `tree_to_dict` (lines 526–532). -/
def tree_to_dict : List BaumKnoten → List TreeDict
  | [] => []
  | BaumKnoten.mk n rp _ ch hv :: ns => TreeDict.mk n rp hv (tree_to_dict ch) :: tree_to_dict ns

/-- `dict_to_tree` (lines 535–546); the URL is rebuilt inline by the
f-string at line 541. -/
def dict_to_tree : List TreeDict → List BaumKnoten
  | [] => []
  | TreeDict.mk n rp hv ch :: ns =>
    BaumKnoten.mk n rp
      (BASE_URL ++ "/qisserver/rds?state=wtree&search=1&trex=step&root120261=" ++ rp ++ "&P.vx=kurz")
      (dict_to_tree ch) hv :: dict_to_tree ns

/-! ## Serving layer (`app.py`)

Only the pieces the mutual-exclusion claim needs: the per-user cache
dict, the lock, the currently running scraper's observable state, and
the two run-starting handlers.  `thread.start()` is modelled by
appending a run descriptor to `runs_started`; the thread body executes
outside the handler. -/

/-- One per-user entry of `user_caches` (line 36 / 55–58). -/
structure UserCache where
  tree : Option (List BaumKnoten) := none
  veranstaltungen : Option (List Veranstaltung) := none

/-- A background run requested by a handler (`threading.Thread(...).start()`). -/
inductive RunReq where
  | scan (user : String) (start_roots : Option (List String))
  | scrape (user : String) (selected : List String)
deriving DecidableEq

/-- Process-wide serving state: `scraper_lock`, `app.config["current_scraper"]`
(its observable progress/accumulator), `user_caches`, and the
instrumentation list of started background runs. -/
structure AppState where
  lockHeld : Bool := false
  current_scraper : Option ScrapeState := none
  user_caches : List (String × UserCache) := []
  runs_started : List RunReq := []

/-- An incoming request: API key, resolved `X-User` value (empty when
absent), and the JSON body fields the two handlers read. -/
structure Request where
  key : String := ""
  user : String := ""
  root_paths : Option (List String) := none
  root_path : Option String := none
  selected : List String := []

/-- Handler responses relevant here. -/
inductive Resp where
  | unauthorized
  | conflict (msg : String)
  | badRequest (msg : String)
  | started
deriving DecidableEq

/-- `get_user` (lines 50–52): header value or `"default"`. -/
def get_user (req : Request) : String :=
  if req.user ≠ "" then req.user else "default"

/-- `get_user_cache` (lines 55–58): look the user up, inserting a fresh
empty entry when absent (Python dicts append new keys at the end). -/
def get_user_cache (user : String) (caches : List (String × UserCache)) :
    UserCache × List (String × UserCache) :=
  match caches.lookup user with
  | some c => (c, caches)
  | none => ({}, caches ++ [(user, {})])

/-- Replace the cache entry of `user` (the in-place mutation
`cache["tree"] = ...` of line 198). -/
def set_user_cache (user : String) (c : UserCache) :
    List (String × UserCache) → List (String × UserCache) :=
  List.map fun p => if p.1 = user then (user, c) else p

/-- `user_file` (lines 61–63), relative to `DATA_DIR`. -/
def user_file (user name : String) : String := name ++ "_" ++ user ++ ".json"

/-- `api_scan_tree` (lines 113–155): auth check, lock check rejecting
with 409 while a run is active, root-path extraction from the body, and
the fire-and-forget start of the scan thread. -/
def api_scan_tree (api_key : String) (req : Request) (st : AppState) : Resp × AppState :=
  if req.key ≠ api_key then (.unauthorized, st)
  else
    let user := get_user req
    if st.lockHeld then
      (.conflict "Scraping läuft bereits. Bitte warte bis der aktuelle Scan fertig ist.", st)
    else
      let start_roots : Option (List String) :=
        match req.root_paths with
        | some (r :: rs) => some (r :: rs)
        | _ =>
          match req.root_path with
          | some single => some [single]
          | none => none
      (.started, { st with runs_started := st.runs_started ++ [RunReq.scan user start_roots] })

/-- `api_scrape` (lines 178–216): auth check, per-user cache access
(inserting an empty entry for a previously unseen user), lock check
rejecting with 409, empty-selection check, tree availability check with
fallback to the persisted tree file, and the fire-and-forget start of
the scrape thread.  `files` models the data directory. -/
def api_scrape (api_key : String) (req : Request)
    (files : String → Option (List TreeDict)) (st : AppState) : Resp × AppState :=
  if req.key ≠ api_key then (.unauthorized, st)
  else
    let user := get_user req
    let cc := get_user_cache user st.user_caches
    let cache := cc.1
    let st := { st with user_caches := cc.2 }
    if st.lockHeld then
      (.conflict "Scraping läuft bereits. Bitte warte bis der aktuelle Vorgang fertig ist.", st)
    else if req.selected = [] then (.badRequest "Keine Bereiche ausgewählt", st)
    else
      match cache.tree with
      | some _ =>
        (.started, { st with runs_started := st.runs_started ++ [RunReq.scrape user req.selected] })
      | none =>
        match files (user_file user "tree") with
        | some data =>
          let st := { st with
            user_caches := set_user_cache user { cache with tree := some (dict_to_tree data) } st.user_caches }
          (.started, { st with runs_started := st.runs_started ++ [RunReq.scrape user req.selected] })
        | none => (.badRequest "Bitte zuerst Struktur laden", st)

/-! ## Spec-side definitions

These follow the wording of the specification (for refinement-style
comparisons with the definitions translated from the source above). -/

/-- Spec-side acceptance rule for one navigation link, as amended for
claim C4: the link must carry the tree-state marker and the identifier
parameter, its identifier must pass the one-level-descendant test, and
its stripped name must be non-empty and not one of the listing-length
selector labels. -/
def accept_link (parent_root : String) (a : Link) : Option BaumKnoten :=
  if strContains a.href "state=wtree" && strContains a.href "root120261=" then
    match extract_root_param a.href with
    | some rp =>
      if is_child_of parent_root rp then
        if a.name ≠ "" && a.name ∉ ["kurz", "mittel", "lang"] then
          some (BaumKnoten.mk a.name rp (build_tree_url rp) [] false)
        else none
      else none
    | none => none
  else none

/-- Spec-side description of deserialization for claim C8: the identical
name/identifier/event-flag/children structure with every node's URL
regenerated from its identifier by the discovery-phase construction rule
`_build_tree_url`. -/
def regen_tree : List BaumKnoten → List BaumKnoten
  | [] => []
  | BaumKnoten.mk n rp _ ch hv :: ns =>
    BaumKnoten.mk n rp (build_tree_url rp) (regen_tree ch) hv :: regen_tree ns

/-- Structural depth of a position identifier: the number of pipe-split
segments of its percent-decoded form (`PathCodec.depth` in the spec). -/
def seg_count (s : String) : Nat := (pysplit (unquote s) '|').length

/-- `Desc d n`: node `d` is a strict descendant of `n`. -/
inductive Desc : BaumKnoten → BaumKnoten → Prop where
  | child {n c : BaumKnoten} : c ∈ n.children → Desc c n
  | step {n c d : BaumKnoten} : c ∈ n.children → Desc d c → Desc d n

/-- Every child's identifier has exactly one more decoded segment than
its parent's, recursively — the structural invariant Phase 1 discovery
establishes. -/
inductive ChainOk : BaumKnoten → Prop where
  | intro {n : BaumKnoten} :
      (∀ c ∈ n.children, seg_count c.root_path = seg_count n.root_path + 1) →
      (∀ c ∈ n.children, ChainOk c) →
      ChainOk n

/-! ## Helper lemmas -/

/-- The link loop of `_find_tree_children` is the in-order `filterMap`
of the per-link acceptance rule. -/
theorem find_eq_filterMap (links : List Link) (pr : String) :
    find_tree_children links pr = links.filterMap (accept_link pr) := by
  show find_tree_children_loop (unquote pr) (pysplit (unquote pr) '|').length links = _
  induction links with
  | nil => rfl
  | cons a rest ih =>
    rw [find_tree_children_loop, List.filterMap_cons]
    split
    · rename_i hm
      cases he : extract_root_param a.href with
      | none =>
        have ha : accept_link pr a = none := by simp [accept_link, hm, he]
        simp only [ha, ih]
      | some rp =>
        simp only [he]
        split
        · rename_i hc
          split
          · rename_i hnm
            have ha : accept_link pr a
                = some (BaumKnoten.mk a.name rp (build_tree_url rp) [] false) := by
              simp only [accept_link, hm, he, is_child_of, hc, hnm, if_true]
            simp only [ha, ih]
          · rename_i hnm
            have ha : accept_link pr a = none := by
              simp only [accept_link, hm, he, is_child_of, hc, hnm, if_true]
              simp [hnm]
            simp only [ha, ih]
        · rename_i hc
          have ha : accept_link pr a = none := by
            simp only [accept_link, hm, he, is_child_of]
            simp [hc]
          simp only [ha, ih]
    · rename_i hm
      have ha : accept_link pr a = none := by
        simp only [accept_link]
        simp [hm]
      simp only [ha, ih]

/-- Every node produced by the acceptance rule is a fresh stub whose
identifier passed the one-level test. -/
theorem accept_link_shape {pr : String} {a : Link} {k : BaumKnoten}
    (h : accept_link pr a = some k) :
    k.children = [] ∧ k.has_veranstaltungen = false ∧ is_child_of pr k.root_path = true := by
  unfold accept_link at h
  split at h
  · split at h
    · split at h
      · split at h
        · rename_i rp _ hc _
          cases h
          exact ⟨rfl, rfl, hc⟩
        · cases h
      · cases h
    · cases h
  · cases h

/-- Every discovered child is a fresh stub whose identifier passed the
one-level test against the parent. -/
theorem find_tree_children_mem {links : List Link} {pr : String} {k : BaumKnoten}
    (h : k ∈ find_tree_children links pr) :
    k.children = [] ∧ k.has_veranstaltungen = false ∧ is_child_of pr k.root_path = true := by
  rw [find_eq_filterMap] at h
  obtain ⟨a, _, ha⟩ := List.mem_filterMap.mp h
  exact accept_link_shape ha

/-- The one-level test forces the decoded segment count to grow by
exactly one. -/
theorem is_child_of_seg {pr rp : String} (h : is_child_of pr rp = true) :
    seg_count rp = seg_count pr + 1 := by
  simp only [is_child_of, Bool.and_eq_true, beq_iff_eq] at h
  exact h.1

/-- With no remaining depth budget the child loop returns the children
untouched, leaves progress alone, and performs no fetch. -/
theorem scanChildren_gas0 (fetch : String → Option Doc) :
    ∀ (ks : List BaumKnoten) (p : Progress),
      scanChildren (scan_node_recursive fetch 0) ks p = (ks, p, [])
  | [], _ => rfl
  | k :: ks, p => by
    have ih := scanChildren_gas0 fetch ks p
    rw [scanChildren]
    simp only [show scan_node_recursive fetch 0 = fun n pr => (n, pr, ([] : List String))
      from rfl] at ih ⊢
    simp [ih]

/-- `List.lookup` is unaffected by appending entries on the right. -/
theorem lookup_append_left {l1 l2 : List (String × UserCache)} {u : String} {c : UserCache}
    (h : l1.lookup u = some c) : (l1 ++ l2).lookup u = some c := by
  induction l1 with
  | nil => simp [List.lookup] at h
  | cons p rest ih =>
    obtain ⟨k, v⟩ := p
    rw [List.cons_append, List.lookup_cons]
    rw [List.lookup_cons] at h
    split at h <;> simp_all [List.lookup_cons]

/-- `get_user_cache` never changes an entry that is already present. -/
theorem get_user_cache_lookup {user u : String} {caches : List (String × UserCache)}
    {c : UserCache} (h : caches.lookup u = some c) :
    ((get_user_cache user caches).2).lookup u = some c := by
  unfold get_user_cache
  cases hl : caches.lookup user with
  | some d => simpa [hl] using h
  | none =>
    simp only [hl]
    exact lookup_append_left h

/-- The line 441–446 assembly leaves the occurrence list itself alone. -/
theorem finishDetail_gruppen (d : Detail) : (finishDetail d).gruppen = d.gruppen := by
  unfold finishDetail
  cases hd : d.gruppen <;> simp [hd]

/-- If two fetch oracles agree on every URL a child-loop run requests,
the run is identical under both. -/
theorem scanChildren_agree (A : String → Prop)
    (rec rec' : BaumKnoten → Progress → BaumKnoten × Progress × List String)
    (h : ∀ n p, (∀ u ∈ (rec n p).2.2, A u) → rec' n p = rec n p) :
    ∀ (ks : List BaumKnoten) (p : Progress),
      (∀ u ∈ (scanChildren rec ks p).2.2, A u) →
      scanChildren rec' ks p = scanChildren rec ks p
  | [], _, _ => rfl
  | k :: ks, p, hA => by
    rw [scanChildren] at hA
    have hmem : ∀ u ∈ (rec k p).2.2, A u := fun u hu =>
      hA u (List.mem_append_left _ hu)
    have h1 : rec' k p = rec k p := h k p hmem
    have hmem2 : ∀ u ∈ (scanChildren rec ks (rec k p).2.1).2.2, A u := fun u hu =>
      hA u (List.mem_append_right _ hu)
    have h2 := scanChildren_agree A rec rec' h ks (rec k p).2.1 hmem2
    rw [scanChildren, scanChildren, h1, h2]

/-- The recursive scan only depends on the fetch oracle's values at the
URLs it actually requests. -/
theorem scan_agree (f f' : String → Option Doc) :
    ∀ (g : Nat) (n : BaumKnoten) (p : Progress),
      (∀ u ∈ (scan_node_recursive f g n p).2.2, f' u = f u) →
      scan_node_recursive f' g n p = scan_node_recursive f g n p
  | 0, _, _, _ => rfl
  | g+1, n, p, hA => by
    have hn : f' n.url = f n.url := by
      apply hA
      cases hf : f n.url <;> simp [scan_node_recursive, hf]
    cases hf : f n.url with
    | none => simp only [scan_node_recursive, hn, hf]
    | some doc =>
      simp only [scan_node_recursive, hn, hf]
      have hA' : ∀ u ∈ (scanChildren (scan_node_recursive f g)
          (find_tree_children doc.links n.root_path)
          (pushDetail { p with current := p.current + 1 } n.name)).2.2, f' u = f u := by
        intro u hu
        apply hA
        simp only [scan_node_recursive, hf]
        exact List.mem_cons_of_mem _ hu
      rw [scanChildren_agree (fun u => f' u = f u) (scan_node_recursive f g)
        (scan_node_recursive f' g) (fun m q hq => scan_agree f f' g m q hq) _ _ hA']

/-- `ChainOk` descends to every strict descendant's subtree. -/
theorem chainOk_of_desc {n m : BaumKnoten} (hd : Desc m n) (h : ChainOk n) : ChainOk m := by
  induction hd with
  | child hc =>
    cases h with
    | intro _ hk => exact hk _ hc
  | step hc _ ih =>
    cases h with
    | intro _ hk => exact ih (hk _ hc)

/-- In a `ChainOk` tree, a strict descendant has strictly more decoded
segments in its identifier. -/
theorem chainOk_desc {n d : BaumKnoten} (hd : Desc d n) :
    ChainOk n → seg_count n.root_path < seg_count d.root_path := by
  induction hd with
  | child hc =>
    intro h
    cases h with
    | intro hs _ =>
      have := hs _ hc
      omega
  | step hc _ ih =>
    intro h
    cases h with
    | intro hs hk =>
      have h1 := hs _ hc
      have h2 := ih (hk _ hc)
      omega

/-- Nodes coming out of the child loop satisfy any property the
recursive step establishes, and keep the identifier of the stub they
came from. -/
theorem scanChildren_nodes (rec : BaumKnoten → Progress → BaumKnoten × Progress × List String)
    (P : BaumKnoten → Prop)
    (hrec : ∀ k p, k.children = [] → ((rec k p).1.root_path = k.root_path ∧ P (rec k p).1)) :
    ∀ (ks : List BaumKnoten) (p : Progress), (∀ k ∈ ks, k.children = []) →
      ∀ c ∈ (scanChildren rec ks p).1, P c ∧ ∃ k ∈ ks, c.root_path = k.root_path
  | [], p, _, c, hc => by simp [scanChildren] at hc
  | k :: ks, p, hks, c, hc => by
    rw [scanChildren] at hc
    rcases List.mem_cons.mp hc with rfl | hmem
    · have h := hrec k p (hks k (List.mem_cons_self k ks))
      exact ⟨h.2, k, List.mem_cons_self k ks, h.1⟩
    · have h := scanChildren_nodes rec P hrec ks (rec k p).2.1
        (fun x hx => hks x (List.mem_cons_of_mem _ hx)) c hmem
      obtain ⟨hp, k', hk', he⟩ := h
      exact ⟨hp, k', List.mem_cons_of_mem _ hk', he⟩

/-- The recursive scan of a fresh stub preserves its identifier and
yields a `ChainOk` subtree. -/
theorem scan_node_ok (f : String → Option Doc) :
    ∀ (g : Nat) (n : BaumKnoten) (p : Progress), n.children = [] →
      (scan_node_recursive f g n p).1.root_path = n.root_path
      ∧ ChainOk (scan_node_recursive f g n p).1
  | 0, n, _, hn =>
    ⟨rfl, ChainOk.intro (fun c hc => absurd (hn ▸ hc) (List.not_mem_nil c))
                        (fun c hc => absurd (hn ▸ hc) (List.not_mem_nil c))⟩
  | g+1, n, p, hn => by
    cases hf : f n.url with
    | none =>
      have he : (scan_node_recursive f (g+1) n p).1 = n := by
        simp only [scan_node_recursive, hf]
      rw [he]
      exact ⟨rfl, ChainOk.intro (fun c hc => absurd (hn ▸ hc) (List.not_mem_nil c))
                                (fun c hc => absurd (hn ▸ hc) (List.not_mem_nil c))⟩
    | some doc =>
      simp only [scan_node_recursive, hf]
      refine ⟨rfl, ChainOk.intro ?_ ?_⟩
      · intro c hc
        have h := scanChildren_nodes (scan_node_recursive f g) ChainOk
          (fun k q hk => scan_node_ok f g k q hk)
          (find_tree_children doc.links n.root_path) _
          (fun k hk => (find_tree_children_mem hk).1) c hc
        obtain ⟨_, k, hk, he⟩ := h
        rw [he]
        exact is_child_of_seg (find_tree_children_mem hk).2.2
      · intro c hc
        have h := scanChildren_nodes (scan_node_recursive f g) ChainOk
          (fun k q hk => scan_node_ok f g k q hk)
          (find_tree_children doc.links n.root_path) _
          (fun k hk => (find_tree_children_mem hk).1) c hc
        exact h.1

/-- Same as `scanChildren_nodes` for the top-level loop of `scan_tree`. -/
theorem scanTops_nodes (rec : BaumKnoten → Progress → BaumKnoten × Progress × List String)
    (P : BaumKnoten → Prop)
    (hrec : ∀ k p, k.children = [] → ((rec k p).1.root_path = k.root_path ∧ P (rec k p).1)) :
    ∀ (ks : List BaumKnoten) (p : Progress), (∀ k ∈ ks, k.children = []) →
      ∀ c ∈ (scanTops rec ks p).1, P c
  | [], p, _, c, hc => by simp [scanTops] at hc
  | k :: ks, p, hks, c, hc => by
    rw [scanTops] at hc
    rcases List.mem_cons.mp hc with rfl | hmem
    · exact (hrec k _ (hks k (List.mem_cons_self k ks))).2
    · exact scanTops_nodes rec P hrec ks _
        (fun x hx => hks x (List.mem_cons_of_mem _ hx)) c hmem

/-- Every top-level node of a Phase 1 crawl roots a `ChainOk` tree. -/
theorem scan_tree_chainOk (f : String → Option Doc) (sr : Option String) :
    ∀ n ∈ (scan_tree f sr).1, ChainOk n := by
  intro n hn
  unfold scan_tree at hn
  cases hf : f (build_tree_url (sr.getD START_ROOT)) with
  | none => simp [hf] at hn
  | some doc =>
    simp only [hf] at hn
    split at hn
    · exact scanTops_nodes (scan_node_recursive f 6) ChainOk
        (fun k q hk => scan_node_ok f 6 k q hk) _ _
        (by intro k hk; simp only [List.mem_singleton] at hk; subst hk; rfl) n hn
    · exact scanTops_nodes (scan_node_recursive f 6) ChainOk
        (fun k q hk => scan_node_ok f 6 k q hk) _ _
        (fun k hk => (find_tree_children_mem hk).1) n hn

/-! ## Claim C1 -/

/-- Claim C1, as stated, is false: a detail page with the two distinct
group labels "Gruppe 1" and "Gruppe 2" spread over three occurrences
makes the row emit 3 records (one per occurrence), not exactly N = 2
(one per distinct group label). -/
theorem c1_counterexample :
    (([{ tag := "Mo", zeit := "8:00-10:00", gruppe := "Gruppe 1" },
       { tag := "Di", zeit := "9:00-11:00", gruppe := "Gruppe 1" },
       { tag := "Mi", zeit := "10:00-12:00", gruppe := "Gruppe 2" }] : List Termin).map
        Termin.gruppe).dedup = ["Gruppe 1", "Gruppe 2"]
    ∧ (processRow ["Pfad"]
        { link_text := "BIO101: Bio", detail_url := "du", dozent_links := ["Doz"], vst_art := "V" }
        (some (finishDetail { gruppen :=
          [{ tag := "Mo", zeit := "8:00-10:00", gruppe := "Gruppe 1" },
           { tag := "Di", zeit := "9:00-11:00", gruppe := "Gruppe 1" },
           { tag := "Mi", zeit := "10:00-12:00", gruppe := "Gruppe 2" }] }))).length = 3 := by
  decide

/-- Claim C1, amended: whenever the detail page yields more than one
occurrence and at least one occurrence carries a non-empty group label,
the row emits one record per parsed occurrence (not per distinct group
label), each carrying that occurrence's own group label and schedule
fields, and that occurrence's lecturer falling back to the listing-row
lecturer (or the detail-page lecturer when the row has none); code,
title, category, and detail URL are copied from the row into every
record. -/
theorem c1_amended (path : List String) (row : Row) (d : Detail)
    (h1 : d.gruppen.length > 1)
    (h2 : d.gruppen.any (fun g => g.gruppe ≠ "") = true) :
    (processRow path row (some d)).length = d.gruppen.length
    ∧ (processRow path row (some d)).map Veranstaltung.gruppe = d.gruppen.map Termin.gruppe
    ∧ (processRow path row (some d)).map Veranstaltung.tag = d.gruppen.map Termin.tag
    ∧ (processRow path row (some d)).map Veranstaltung.zeit = d.gruppen.map Termin.zeit
    ∧ (processRow path row (some d)).map Veranstaltung.rhythmus = d.gruppen.map Termin.rhythmus
    ∧ (processRow path row (some d)).map Veranstaltung.raum = d.gruppen.map Termin.raum
    ∧ (processRow path row (some d)).map Veranstaltung.dozent
        = d.gruppen.map (fun g => if g.dozent ≠ "" then g.dozent
            else if pyjoin ", " row.dozent_links ≠ ""
                 then pyjoin ", " row.dozent_links else d.dozent)
    ∧ (∀ v ∈ processRow path row (some d),
        v.kennung = backfill_kennung (extract_kennung_titel row.link_text).1 path
        ∧ v.titel = (extract_kennung_titel row.link_text).2
        ∧ v.veranstaltungsart = row.vst_art
        ∧ v.detail_url = row.detail_url) := by
  have hc : (decide (d.gruppen.length > 1) && d.gruppen.any (fun g => g.gruppe ≠ "")) = true := by
    simp only [Bool.and_eq_true, decide_eq_true_eq]
    exact ⟨h1, h2⟩
  unfold processRow
  simp only [hc, if_true, List.map_map, List.length_map]
  refine ⟨trivial, ?_, ?_, ?_, ?_, ?_, ?_, ?_⟩ <;>
    first
      | rfl
      | (intro v hv
         simp only [List.mem_map] at hv
         obtain ⟨g, _, rfl⟩ := hv
         exact ⟨rfl, rfl, rfl, rfl⟩)

/-- Witness for `c1_amended` at a concrete two-group detail page. -/
theorem c1_amended_witness :
    (processRow ["Pfad"] { link_text := "T: U", detail_url := "du" }
      (some { gruppen := [{ tag := "Mo", gruppe := "Gruppe 1" },
                          { tag := "Di", gruppe := "Gruppe 2" }] })).length = 2
    ∧ (processRow ["Pfad"] { link_text := "T: U", detail_url := "du" }
        (some { gruppen := [{ tag := "Mo", gruppe := "Gruppe 1" },
                            { tag := "Di", gruppe := "Gruppe 2" }] })).map Veranstaltung.gruppe
      = ["Gruppe 1", "Gruppe 2"] :=
  ⟨((c1_amended ["Pfad"] { link_text := "T: U", detail_url := "du" }
      { gruppen := [{ tag := "Mo", gruppe := "Gruppe 1" },
                    { tag := "Di", gruppe := "Gruppe 2" }] } (by decide) (by decide)).1).trans
      (by decide),
   ((c1_amended ["Pfad"] { link_text := "T: U", detail_url := "du" }
      { gruppen := [{ tag := "Mo", gruppe := "Gruppe 1" },
                    { tag := "Di", gruppe := "Gruppe 2" }] } (by decide) (by decide)).2.1).trans
      (by decide)⟩

/-! ## Claim C2 -/

/-- Claim C2, as stated, is false: two occurrences that both carry the
identical non-empty group label "Gruppe 1" make the row emit 2 records,
not the single record with one secondary occurrence the claim requires
for "all carry the same group label". -/
theorem c2_counterexample :
    (([{ tag := "Mo", gruppe := "Gruppe 1" },
       { tag := "Di", gruppe := "Gruppe 1" }] : List Termin).map Termin.gruppe).dedup
        = ["Gruppe 1"]
    ∧ (processRow ["Pfad"]
        { link_text := "BIO101: Bio", detail_url := "du" }
        (some (finishDetail { gruppen :=
          [{ tag := "Mo", gruppe := "Gruppe 1" },
           { tag := "Di", gruppe := "Gruppe 1" }] }))).length = 2 := by
  decide

/-- Claim C2, amended: when the detail page yields two or more
occurrences that all carry an *empty* group label, the row emits exactly
one record; its primary weekday/time/recurrence/room come from the first
parsed occurrence (via the line 441–446 assembly) and every further
occurrence lands in the secondary-occurrences list.  (With a repeated
non-empty label the per-occurrence split of C1 fires instead.) -/
theorem c2_amended (path : List String) (row : Row) (d0 : Detail)
    (h1 : 2 ≤ d0.gruppen.length)
    (h2 : ∀ t ∈ d0.gruppen, t.gruppe = "") :
    (processRow path row (some (finishDetail d0))).length = 1
    ∧ ∀ v ∈ processRow path row (some (finishDetail d0)),
        v.tag = (d0.gruppen.headD {}).tag
        ∧ v.zeit = (d0.gruppen.headD {}).zeit
        ∧ v.rhythmus = (d0.gruppen.headD {}).rhythmus
        ∧ v.raum = (d0.gruppen.headD {}).raum
        ∧ v.weitere_termine = d0.gruppen.tail
        ∧ v.gruppe = ""
        ∧ v.titel = (extract_kennung_titel row.link_text).2
        ∧ v.kennung = backfill_kennung (extract_kennung_titel row.link_text).1 path := by
  rcases hgl : d0.gruppen with _ | ⟨t, rest⟩
  · simp [hgl] at h1
  · have hany : ((t :: rest).any fun g => decide (g.gruppe ≠ "")) = false := by
      simp only [List.any_eq_false, decide_eq_true_eq, not_not]
      intro g hg
      exact h2 g (hgl ▸ hg)
    have hfin : finishDetail d0
        = { d0 with tag := t.tag, zeit := t.zeit, rhythmus := t.rhythmus, raum := t.raum } := by
      unfold finishDetail
      rw [hgl]
    unfold processRow
    simp only [hfin, hgl]
    have hcond : (decide ((t :: rest).length > 1)
        && (t :: rest).any fun g => decide (g.gruppe ≠ "")) = false := by
      rw [hany, Bool.and_false]
    rw [if_neg (by rw [hcond]; exact Bool.false_ne_true)]
    constructor
    · rfl
    · intro v hv
      simp only [List.mem_singleton] at hv
      subst hv
      refine ⟨rfl, rfl, rfl, rfl, ?_, ?_, rfl, rfl⟩
      · simp
      · exact h2 t (by rw [hgl]; exact List.mem_cons_self t rest)

/-- Witness for `c2_amended` at a concrete three-occurrence detail page
with no group labels. -/
theorem c2_amended_witness :
    (processRow ["Pfad"] { link_text := "T" }
      (some (finishDetail
        { gruppen := [{ tag := "Mo" }, { tag := "Di" }, { tag := "Mi" }] }))).length = 1 :=
  (c2_amended ["Pfad"] { link_text := "T" }
    { gruppen := [{ tag := "Mo" }, { tag := "Di" }, { tag := "Mi" }] }
    (by decide) (by decide)).1

/-! ## Claim C3 -/

/-- Claim C3: while the lock is held, `api_scan_tree` rejects with the
distinct 409 "already running" response and leaves the state exactly
unchanged, and `api_scrape` rejects with its 409 response, starts no
background run, leaves the lock, the running scraper's progress and
accumulator untouched, and changes no existing per-user cache entry (in
particular not the running task's). -/
theorem c3_mutual_exclusion (api_key : String) (req : Request)
    (files : String → Option (List TreeDict)) (st : AppState)
    (hauth : req.key = api_key) (hlock : st.lockHeld = true) :
    api_scan_tree api_key req st
      = (Resp.conflict "Scraping läuft bereits. Bitte warte bis der aktuelle Scan fertig ist.", st)
    ∧ (api_scrape api_key req files st).1
      = Resp.conflict "Scraping läuft bereits. Bitte warte bis der aktuelle Vorgang fertig ist."
    ∧ (api_scrape api_key req files st).2.lockHeld = st.lockHeld
    ∧ (api_scrape api_key req files st).2.current_scraper = st.current_scraper
    ∧ (api_scrape api_key req files st).2.runs_started = st.runs_started
    ∧ ∀ u c, st.user_caches.lookup u = some c →
        (api_scrape api_key req files st).2.user_caches.lookup u = some c := by
  unfold api_scan_tree api_scrape
  simp only [hauth, hlock, ne_eq, not_true_eq_false, if_false, ite_true, if_true]
  refine ⟨trivial, trivial, trivial, trivial, trivial, ?_⟩
  intro u c h
  exact get_user_cache_lookup h

/-- Witness for `c3_mutual_exclusion` at a concrete locked state. -/
theorem c3_mutual_exclusion_witness :
    (api_scan_tree "k" { key := "k" } { lockHeld := true }).1
      = Resp.conflict "Scraping läuft bereits. Bitte warte bis der aktuelle Scan fertig ist." :=
  congrArg Prod.fst
    (c3_mutual_exclusion "k" { key := "k" } (fun _ => none) { lockHeld := true } rfl rfl).1

/-! ## Claim C4 -/

/-- Claim C4, as stated, is false: a navigation link whose identifier
`1%7C2` passes the one-level-descendant test against parent `1` is
nevertheless discarded because its name "kurz" is one of the
listing-length selector labels. -/
theorem c4_counterexample :
    is_child_of "1" "1%7C2" = true
    ∧ (find_tree_children [{ href := "state=wtree&root120261=1%7C2", name := "kurz" }] "1").length
        = 0 := by
  decide

/-- Claim C4, amended: child discovery keeps, in document order, exactly
the navigation links that carry the tree-state marker and the identifier
parameter, whose identifier passes the one-level-descendant test, *and*
whose non-empty name is not one of the listing-length selector labels
"kurz"/"mittel"/"lang" (`accept_link`); and the one-level test holds iff
the candidate's percent-decoded pipe-split segment count is exactly the
parent's plus one and the decoded parent string is a prefix of the
decoded candidate string. -/
theorem c4_amended (links : List Link) (parent_root : String) :
    find_tree_children links parent_root = links.filterMap (accept_link parent_root)
    ∧ ∀ rp, is_child_of parent_root rp = true ↔
        ((pysplit (unquote rp) '|').length = (pysplit (unquote parent_root) '|').length + 1
         ∧ (unquote parent_root).toList <+: (unquote rp).toList) := by
  refine ⟨find_eq_filterMap links parent_root, ?_⟩
  intro rp
  simp [is_child_of, startswith, Bool.and_eq_true, beq_iff_eq, List.isPrefixOf_iff_prefix]

/-! ## Claim C5 -/

/-- Claim C5, as stated, is false: for the colon-carrying link text
": Einführung in die Biologie" the trimmed text before the first colon
is empty, so the code is backfilled from the last breadcrumb segment
("Modul X") instead of being that empty prefix. -/
theorem c5_counterexample :
    strContains ": Einführung in die Biologie" ":" = true
    ∧ (processRow ["Biologie", "Modul X"]
        { link_text := ": Einführung in die Biologie" } none).map Veranstaltung.kennung
      = ["Modul X"]
    ∧ ("Modul X" : String) ≠ "" := by
  decide

/-- Claim C5, amended: with a colon in the link text, the code is the
stripped text before the first colon and the title the stripped
remainder; without a colon the whole text is the title and the code is
left blank; a blank code (from either case) is backfilled from the last
breadcrumb segment when the breadcrumb is non-empty, and stays blank
otherwise. -/
theorem c5_amended (text : String) (path : List String) :
    (strContains text ":" = true →
       extract_kennung_titel text
         = (pystrip ((pysplit text ':').headD ""),
            pystrip (pyjoin ":" (pysplit text ':').tail)))
    ∧ (strContains text ":" = false → extract_kennung_titel text = ("", text))
    ∧ (∀ k : String, k ≠ "" → backfill_kennung k path = k)
    ∧ (path ≠ [] → backfill_kennung "" path = path.getLastD "")
    ∧ backfill_kennung "" [] = "" := by
  refine ⟨?_, ?_, ?_, ?_, ?_⟩
  · intro h; simp [extract_kennung_titel, h]
  · intro h; simp [extract_kennung_titel, h]
  · intro k hk; simp [backfill_kennung, hk]
  · intro hp; simp [backfill_kennung, hp]
  · simp [backfill_kennung]

/-- Witness for `c5_amended` at the spec's own examples. -/
theorem c5_amended_witness :
    extract_kennung_titel "BIO101: Einführung in die Biologie"
      = ("BIO101", "Einführung in die Biologie")
    ∧ backfill_kennung "" ["Biologie", "Modul X"] = "Modul X" :=
  ⟨((c5_amended "BIO101: Einführung in die Biologie" []).1 (by decide)).trans (by decide),
   ((c5_amended "" ["Biologie", "Modul X"]).2.2.2.1 (by decide)).trans (by decide)⟩

/-! ## Claim C6 -/

/-- Claim C6, as stated, is false in its "the failed node is absent from
the resulting tree" part: with a fetch oracle that fails on child `A`'s
page (node `1%7C2`), the crawl still returns a tree *containing* that
node (as a childless leaf with an unset event flag) next to its fully
scanned sibling `B`. -/
theorem c6_counterexample :
    (fun F : String → Option Doc =>
      F (build_tree_url "1%7C2") = none
      ∧ ((scan_tree F (some "1")).1.map BaumKnoten.root_path) = ["1%7C2", "1%7C3"]
      ∧ ((scan_tree F (some "1")).1.map BaumKnoten.has_veranstaltungen) = [false, true])
    (fun u =>
      if u = build_tree_url "1" then
        some { verRows := none,
               links := [{ href := "state=wtree&root120261=1%7C2", name := "A" },
                         { href := "state=wtree&root120261=1%7C3", name := "B" }],
               rawDetail := {} }
      else if u = build_tree_url "1%7C3" then
        some { verRows := some [], links := [], rawDetail := {} }
      else none) := by
  refine ⟨rfl, ?_, ?_⟩ <;> decide

/-- Claim C6, amended: a transport failure on one child's page never
affects its siblings — scanning the sibling pair `[a, b]` under a fetch
oracle that fails exactly on `a.url` returns `a` untouched (still in the
tree, as a leaf) and gives `b` exactly the subtree it gets when no
failure occurs (provided `b`'s scan never requests `a.url`); and in
Phase 2 a node whose page fetch fails contributes no event records and
leaves the scrape state unchanged. -/
theorem c6_amended (f : String → Option Doc) (g : Nat) (a b : BaumKnoten)
    (p : Progress) (url2 : String) (path : List String) (st : ScrapeState)
    (hb : ∀ u ∈ (scan_node_recursive f (g+1) b p).2.2, u ≠ a.url) :
    scanChildren (scan_node_recursive (fun u => if u = a.url then none else f u) (g+1)) [a, b] p
      = ([a, (scan_node_recursive f (g+1) b p).1],
         (scan_node_recursive f (g+1) b p).2.1,
         a.url :: (scan_node_recursive f (g+1) b p).2.2)
    ∧ (∀ f2 : String → Option Doc, f2 url2 = none → scrape_page f2 url2 path st = st) := by
  constructor
  · have ha : scan_node_recursive (fun u => if u = a.url then none else f u) (g+1) a p
        = (a, p, [a.url]) := by
      simp [scan_node_recursive]
    have hagree : scan_node_recursive (fun u => if u = a.url then none else f u) (g+1) b p
        = scan_node_recursive f (g+1) b p := by
      apply scan_agree
      intro u hu
      simp [hb u hu]
    rw [scanChildren, scanChildren, scanChildren, ha, hagree]
    simp
  · intro f2 h2
    simp [scrape_page, h2]

/-- Witness for `c6_amended` at a concrete sibling pair. -/
theorem c6_amended_witness :
    scanChildren (scan_node_recursive (fun u => if u = "ua" then none else none) 1)
        [BaumKnoten.mk "A" "ra" "ua" [] false, BaumKnoten.mk "B" "rb" "ub" [] false] {}
      = ([BaumKnoten.mk "A" "ra" "ua" [] false, BaumKnoten.mk "B" "rb" "ub" [] false],
         {}, ["ua", "ub"])
    ∧ (∀ f2 : String → Option Doc, f2 "ua" = none → scrape_page f2 "ua" [] {} = {}) :=
  c6_amended (fun _ => none) 0 (BaumKnoten.mk "A" "ra" "ua" [] false)
    (BaumKnoten.mk "B" "rb" "ub" [] false) {} "ua" [] {} (by decide)

/-! ## Claim C7 -/

/-- Claim C7: running the recursive crawl step on the freshly discovered
children with `maxDepth = 0` (remaining budget `gas = maxDepth - depth
= 0`, the line 141 guard) returns exactly those children with no page
fetch performed (empty request list) and progress untouched; each such
child is a stub with no grandchildren attached and an unset event flag,
because the depth bound is checked before the fetch. -/
theorem c7_depth_zero (fetch : String → Option Doc) (links : List Link)
    (parent_root : String) (p : Progress) :
    scanChildren (scan_node_recursive fetch 0) (find_tree_children links parent_root) p
      = (find_tree_children links parent_root, p, [])
    ∧ ∀ k ∈ find_tree_children links parent_root,
        k.children = [] ∧ k.has_veranstaltungen = false :=
  ⟨scanChildren_gas0 fetch _ p, fun _ hk =>
     ⟨(find_tree_children_mem hk).1, (find_tree_children_mem hk).2.1⟩⟩

/-! ## Claim C8 -/

/-- Claim C8: serializing a tree with `tree_to_dict` and reconstructing
it with `dict_to_tree` yields a tree with identical name, identifier,
event flag and children structure at every node, every node's URL being
regenerated from its identifier by the discovery-phase rule
`_build_tree_url` (`regen_tree`). -/
theorem c8_roundtrip : (ns : List BaumKnoten) → dict_to_tree (tree_to_dict ns) = regen_tree ns
  | [] => by simp [tree_to_dict, dict_to_tree, regen_tree]
  | BaumKnoten.mk n rp u ch hv :: ns => by
    simp only [tree_to_dict, dict_to_tree, regen_tree, build_tree_url,
      List.cons.injEq, BaumKnoten.mk.injEq]
    exact ⟨⟨trivial, trivial, trivial, c8_roundtrip ch, trivial⟩, c8_roundtrip ns⟩

/-! ## Claim C9 -/

/-- Claim C9, as stated, is false: discovery performs no deduplication,
so a page presenting the same accepted navigation link twice produces a
tree in which two sibling nodes share the identifier `1%7C2`. -/
theorem c9_counterexample :
    (fun F : String → Option Doc =>
      ((scan_tree F (some "1")).1.map BaumKnoten.root_path) = ["1%7C2", "1%7C2"]
      ∧ ¬ ((scan_tree F (some "1")).1.map BaumKnoten.root_path).Nodup)
    (fun u =>
      if u = build_tree_url "1" then
        some { links := [{ href := "state=wtree&root120261=1%7C2", name := "A" },
                         { href := "state=wtree&root120261=1%7C2", name := "A" }] }
      else none) := by
  constructor <;> decide

/-- Claim C9, amended: in every tree produced by Phase 1 discovery, the
identifiers are distinct along every ancestor chain — for *any* node of
the tree, whether a top-level node or a strict descendant of one, every
strict descendant's percent-decoded identifier has strictly more pipe
segments than that node's, hence differs from it.  (Uniqueness across
siblings or unrelated branches is not guaranteed, see
`c9_counterexample`.) -/
theorem c9_amended (f : String → Option Doc) (sr : Option String) {n d : BaumKnoten}
    (hn : n ∈ (scan_tree f sr).1 ∨ ∃ r ∈ (scan_tree f sr).1, Desc n r)
    (hd : Desc d n) :
    d.root_path ≠ n.root_path ∧ seg_count n.root_path < seg_count d.root_path := by
  have hok : ChainOk n := by
    rcases hn with hn | ⟨r, hr, hdesc⟩
    · exact scan_tree_chainOk f sr n hn
    · exact chainOk_of_desc hdesc (scan_tree_chainOk f sr r hr)
  have hlt := chainOk_desc hd hok
  constructor
  · intro he
    rw [he] at hlt
    exact lt_irrefl _ hlt
  · exact hlt

/-- Witness for `c9_amended` at a concrete three-level crawl, taking as
ancestor a depth-1 node (a strict descendant of the top-level node) and
as descendant that node's own child. -/
theorem c9_amended_witness :
    (("1%7C2%7C5%7C9" : String) ≠ "1%7C2%7C5")
    ∧ seg_count "1%7C2%7C5" < seg_count "1%7C2%7C5%7C9" :=
  c9_amended
    (fun u =>
      if u = build_tree_url "1" then
        some { links := [{ href := "state=wtree&root120261=1%7C2", name := "A" }] }
      else if u = build_tree_url "1%7C2" then
        some { links := [{ href := "state=wtree&root120261=1%7C2%7C5", name := "C" }] }
      else if u = build_tree_url "1%7C2%7C5" then
        some { links := [{ href := "state=wtree&root120261=1%7C2%7C5%7C9", name := "E" }] }
      else none)
    (some "1")
    (n := BaumKnoten.mk "C" "1%7C2%7C5" (build_tree_url "1%7C2%7C5")
      [BaumKnoten.mk "E" "1%7C2%7C5%7C9" (build_tree_url "1%7C2%7C5%7C9") [] false] false)
    (d := BaumKnoten.mk "E" "1%7C2%7C5%7C9" (build_tree_url "1%7C2%7C5%7C9") [] false)
    (Or.inr
      ⟨BaumKnoten.mk "A" "1%7C2" (build_tree_url "1%7C2")
        [BaumKnoten.mk "C" "1%7C2%7C5" (build_tree_url "1%7C2%7C5")
          [BaumKnoten.mk "E" "1%7C2%7C5%7C9" (build_tree_url "1%7C2%7C5%7C9") [] false] false]
        false,
       by
        have h : ((scan_tree
            (fun u =>
              if u = build_tree_url "1" then
                some { links := [{ href := "state=wtree&root120261=1%7C2", name := "A" }] }
              else if u = build_tree_url "1%7C2" then
                some { links := [{ href := "state=wtree&root120261=1%7C2%7C5", name := "C" }] }
              else if u = build_tree_url "1%7C2%7C5" then
                some { links := [{ href := "state=wtree&root120261=1%7C2%7C5%7C9", name := "E" }] }
              else none)
            (some "1")).1)
            = [BaumKnoten.mk "A" "1%7C2" (build_tree_url "1%7C2")
                [BaumKnoten.mk "C" "1%7C2%7C5" (build_tree_url "1%7C2%7C5")
                  [BaumKnoten.mk "E" "1%7C2%7C5%7C9" (build_tree_url "1%7C2%7C5%7C9") [] false]
                  false]
                false] := rfl
        rw [h]
        exact List.mem_singleton.mpr rfl,
       Desc.child (List.mem_singleton.mpr rfl)⟩)
    (Desc.child (List.mem_singleton.mpr rfl))

/-! ## Claim C10 -/

/-- Claim C10: `scrape_selected` first resets both the event-record
accumulator and the progress dict, so its outcome is completely
independent of the scraper state it starts from — no record of an
earlier run can reappear — and the list it returns is exactly the list
it leaves stored on the scraper. -/
theorem c10_reset (fetch : String → Option Doc) (tree : List BaumKnoten)
    (selected : List String) (s1 s2 : ScrapeState) :
    scrape_selected fetch tree selected s1 = scrape_selected fetch tree selected s2
    ∧ (scrape_selected fetch tree selected s1).1
        = (scrape_selected fetch tree selected s1).2.veranstaltungen :=
  ⟨rfl, rfl⟩

end Kurskompass
